import Mathlib

/-!
A shallow embedding of the dataforge core (lifecycle orchestrator, engine
strategies, storage service, backup service) together with proofs about the
behaviour its specification describes.

Conventions of the embedding:
* TypeScript exceptions become `Except Err`; `Err.k8s code` stands for a
  Kubernetes `ApiException` whose `body.code` is `code` (so that
  `isK8sError e && e.body.code === c` is `e = .k8s c`), and `Err.msg s`
  stands for a plain `new Error(s)`.
* Every Kubernetes / S3 API call may fail for environment reasons; this
  nondeterminism is modelled by a fault schedule (`Faults`), one entry
  consumed per API call: `none` means the call behaves according to the
  cluster state, `some e` means the transport reports error `e`.
* Base64 encoding/decoding of secret values round-trips and is modelled as
  the identity; secret payloads are association lists of decoded strings.
* `crypto.randomFillSync` is modelled by an arbitrary byte source
  `Nat → Nat`.
-/

namespace DataForge

/-- Runtime errors: a Kubernetes API error carrying its HTTP `body.code`
(`isK8sError` is true exactly for these), or a plain JavaScript `Error`
with its message. -/
inductive Err where
  | k8s (code : Nat)
  | msg (s : String)
deriving Repr, DecidableEq

/-- The `isK8sError` type guard from the error helpers. -/
def isK8sError : Err → Bool
  | .k8s _ => true
  | .msg _ => false

instance exceptDecEq {ε α : Type} [DecidableEq ε] [DecidableEq α] :
    DecidableEq (Except ε α)
  | .error e₁, .error e₂ => decidable_of_iff (e₁ = e₂) (by simp)
  | .error _, .ok _ => isFalse (by simp)
  | .ok _, .error _ => isFalse (by simp)
  | .ok a₁, .ok a₂ => decidable_of_iff (a₁ = a₂) (by simp)

/-- Fault schedule for a run: one entry consumed per external API call. -/
abbrev Faults := List (Option Err)

/-- Pop the next fault from the schedule; an exhausted schedule behaves as
fault-free. -/
def takeFault : Faults → Option Err × Faults
  | [] => (none, [])
  | f :: rest => (f, rest)

/-- JavaScript `x || d` for an optional string (`undefined` and the empty
string are falsy). -/
def jsOrStr (x : Option String) (d : String) : String :=
  match x with
  | none => d
  | some s => if s = "" then d else s

/-- JavaScript `x || d` for an optional number (`undefined` and `0` are
falsy). -/
def jsOrNat (x : Option Nat) (d : Nat) : Nat :=
  match x with
  | none => d
  | some v => if v = 0 then d else v

/-- Lookup in an association list keyed by strings (resource maps, secret
payloads, label maps). -/
def getRes {α : Type} : List (String × α) → String → Option α
  | [], _ => none
  | (k, v) :: rest, key => if k = key then some v else getRes rest key

/-- Remove every entry with the given key (deletion of a named resource). -/
def eraseKey {α : Type} (key : String) : List (String × α) → List (String × α)
  | [] => []
  | (k, v) :: rest => if k = key then eraseKey key rest else (k, v) :: eraseKey key rest

/-! ## Utilities (`src/lib/utils.ts`) -/

/-- The alphanumeric alphabet used by `generatePassword`. -/
def charset : String := "abcdefghijklmnopqrstuvwxyzABCDEFGHIJKLMNOPQRSTUVWXYZ0123456789"

/-- The helper `generatePassword(length)` from `src/lib/utils.ts` (the source
defaults `length` to 16): fill an array of `len` random bytes and map each
byte `x` to `charset[x % charset.length]`. -/
def generatePassword (len : Nat) (rand : Nat → Nat) : String :=
  String.mk ((List.range len).map (fun i => charset.data.getD (rand i % charset.data.length) 'a'))

/-! ## Engine strategies (`src/lib/k8s/strategies/postgres.ts`, `redis.ts`,
`factory.ts`) -/

/-- Source of an environment variable in a backup job container. -/
inductive EnvSource where
  | secretRef (secretName key : String)
  | plain (v : String)
deriving Repr, DecidableEq

/-- One environment variable of a backup job container. -/
structure EnvVarSpec where
  name : String
  src : EnvSource
deriving Repr, DecidableEq

/-- The optional backup configuration returned by a strategy. -/
structure BackupConfig where
  image : String
  command : List String
  env : List EnvVarSpec
deriving Repr, DecidableEq

/-- The `DatabaseStrategy` interface: methods without arguments become plain
fields. Credential generators take the random byte source.  The declarative
pod fragments (`createContainerEnv`, `createVolumeMounts`,
`getContainerArgs`, `getReadinessProbe`) are not carried: no verified claim
observes them. -/
structure Strategy where
  getDbType : String
  getImageName : String → String
  getDefaultPort : Nat
  getVolumeName : String
  getBackupConfig : String → String → String → String → Option BackupConfig
  getInternalDbName : String → String
  createUsername : (Nat → Nat) → String
  createPassword : (Nat → Nat) → String
  createDumpCommand : List String
  createPreRestoreCommand : List String
  createRestoreCommand : List String

/-- Postgres internal-name normalization: the global-regex replace in the
source substitutes an underscore for every dash of the requested name. -/
def replaceDashes (s : String) : String :=
  String.mk (s.data.map (fun c => if c = '-' then '_' else c))

/-- The pg_dump-to-S3 shell pipeline of the postgres backup job (template
interpolation of `name`; the shell line continuations of the source literal
are collapsed to single spaces). -/
def pgBackupShell (name : String) : String :=
  "set -o pipefail && apk add --no-cache aws-cli && " ++
  "export AWS_ACCESS_KEY_ID=$S3_ACCESS_KEY && " ++
  "export AWS_SECRET_ACCESS_KEY=$S3_SECRET_KEY && " ++
  "export AWS_DEFAULT_REGION=$S3_REGION && " ++
  "pg_dump -h " ++ name ++ "-service -U $DB_USER --clean --if-exists $DB_NAME " ++
  "| aws s3 cp - s3://$S3_BUCKET/" ++ name ++ "/backup_$(date +%Y-%m-%d_%H-%M-%S).sql " ++
  "--endpoint-url $S3_ENDPOINT"

/-- `PostgresStrategy` from `src/lib/k8s/strategies/postgres.ts`. -/
def postgresStrategy : Strategy where
  getDbType := "postgres"
  getImageName := fun version => "postgres:" ++ (if version = "" then "17" else version) ++ "-alpine"
  getDefaultPort := 5432
  getVolumeName := "postgres-data"
  getBackupConfig := fun name secretName dbName version =>
    some
      { image := "postgres:" ++ (if version = "" then "17" else version) ++ "-alpine"
        command := ["/bin/sh", "-c", pgBackupShell name]
        env :=
          [ { name := "DB_USER", src := .secretRef secretName "username" },
            { name := "PGPASSWORD", src := .secretRef secretName "password" },
            { name := "DB_NAME", src := .plain dbName } ] }
  getInternalDbName := replaceDashes
  createUsername := fun rand => "user_" ++ generatePassword 6 rand
  createPassword := fun rand => generatePassword 16 rand
  createDumpCommand := ["/bin/sh", "-c", "pg_dump -h localhost -U $POSTGRES_USER $POSTGRES_DB"]
  createPreRestoreCommand :=
    ["/bin/sh", "-c",
     "psql -U $POSTGRES_USER -d $POSTGRES_DB -c \"SELECT pg_terminate_backend(pid) FROM pg_stat_activity WHERE pid <> pg_backend_pid() AND datname = current_database();\""]
  createRestoreCommand := ["/bin/sh", "-c", "psql -h localhost -U $POSTGRES_USER -d $POSTGRES_DB"]

/-- `RedisStrategy` from `src/lib/k8s/strategies/redis.ts`. -/
def redisStrategy : Strategy where
  getDbType := "redis"
  getImageName := fun version => "redis:" ++ (if version = "" then "7" else version) ++ "-alpine"
  getDefaultPort := 6379
  getVolumeName := "redis-data"
  getBackupConfig := fun _ _ _ _ => none
  getInternalDbName := fun _ => "0"
  createUsername := fun _ => "default"
  createPassword := fun rand => generatePassword 16 rand
  createDumpCommand := ["/bin/sh", "-c", "redis-cli -h localhost -a $REDIS_PASSWORD --rdb -"]
  createPreRestoreCommand := ["/bin/sh", "-c", "redis-cli -h localhost -a $REDIS_PASSWORD FLUSHALL"]
  createRestoreCommand := ["/bin/sh", "-c", "redis-cli -h localhost -a $REDIS_PASSWORD --pipe"]

/-- `StrategyFactory.getStrategy` from `src/lib/k8s/strategies/factory.ts`. -/
def getStrategy (type : String) : Except Err Strategy :=
  if type = "postgres" then .ok postgresStrategy
  else if type = "redis" then .ok redisStrategy
  else .error (.msg ("Unknown database type strategy: " ++ type))

/-- The `'postgres' | 'redis'` union of `CreateDatabaseRequest.type`. -/
inductive DbType where
  | postgres
  | redis
deriving Repr, DecidableEq

/-- The string value of the union tag. -/
def DbType.label : DbType → String
  | .postgres => "postgres"
  | .redis => "redis"

/-- The strategy the factory resolves for a statically typed engine tag. -/
def DbType.strategy : DbType → Strategy
  | .postgres => postgresStrategy
  | .redis => redisStrategy

/-! ## Cluster and object-store state -/

/-- Decoded payload of a secret: key to decoded string value. -/
abbrev KVs := List (String × String)

/-- A service as far as the code observes it: its port list and the IPs of
its load-balancer ingress entries. -/
structure ServiceData where
  ports : List Nat
  ingressIps : List String
deriving Repr, DecidableEq

/-- A stateful set as far as the code observes it: its labels and the two
replica counters of its status (absent fields are `none`). -/
structure Sts where
  labels : KVs
  statusReplicas : Option Nat
  statusReadyReplicas : Option Nat
deriving Repr, DecidableEq

/-- A cron job as far as the code observes it: the schedule and the job
template spec (`none` models a cron job whose `spec.jobTemplate.spec` is
missing). -/
structure CronJob where
  schedule : String
  jobTemplate : Option BackupConfig
deriving Repr, DecidableEq

/-- One object in the S3 bucket. -/
structure S3Obj where
  key : String
  size : Nat
  lastModified : Nat
deriving Repr, DecidableEq

/-- The namespaced cluster state plus the S3 bucket contents, all keyed by
resource name. -/
structure Cluster where
  secrets : List (String × KVs)
  services : List (String × ServiceData)
  stss : List (String × Sts)
  crons : List (String × CronJob)
  jobs : List String
  pvcs : List String
  s3 : List S3Obj
deriving Repr, DecidableEq

/-- Validated environment configuration (`src/lib/config.ts`).
`passwordLength` is `PASSWORD_LENGTH` (defaulted to 16 by the schema). -/
structure Config where
  namespaceName : String
  s3AccessKey : String
  s3SecretKey : String
  s3Endpoint : String
  s3Bucket : String
  s3Region : String
  passwordLength : Nat
deriving Repr, DecidableEq

/-- Result of a state-changing facade call: outcome, new cluster state, and
the remaining fault schedule. -/
abbrev OpRes (α : Type) := Except Err α × Cluster × Faults

/-! ## The Kubernetes facade (`src/lib/k8s/api.ts`)

Create calls fail with HTTP 409 when the name already exists; get calls fail
with HTTP 404 when the name is absent; the delete calls of the facade
suppress every error (so a delete under a fault, or of an absent resource,
simply leaves the state unchanged). -/

/-- `k8s.createSecret`. -/
def createSecretOp (name : String) (data : KVs) (σ : Cluster) (fs : Faults) : OpRes Unit :=
  match takeFault fs with
  | (some e, fs') => (.error e, σ, fs')
  | (none, fs') =>
    match getRes σ.secrets name with
    | some _ => (.error (.k8s 409), σ, fs')
    | none => (.ok (), { σ with secrets := (name, data) :: σ.secrets }, fs')

/-- `k8s.getSecret` (reads do not change the cluster). -/
def getSecretOp (name : String) (σ : Cluster) (fs : Faults) : Except Err KVs × Faults :=
  match takeFault fs with
  | (some e, fs') => (.error e, fs')
  | (none, fs') =>
    match getRes σ.secrets name with
    | some d => (.ok d, fs')
    | none => (.error (.k8s 404), fs')

/-- `k8s.deleteSecret`: every error is suppressed, absence is success. -/
def deleteSecretOp (name : String) (σ : Cluster) (fs : Faults) : Cluster × Faults :=
  match takeFault fs with
  | (some _, fs') => (σ, fs')
  | (none, fs') => ({ σ with secrets := eraseKey name σ.secrets }, fs')

/-- `k8s.patchSecret`: strategic-merge patch of `stringData` (patched keys
override, lookup finds the patched values first). -/
def patchSecretOp (name : String) (data : KVs) (σ : Cluster) (fs : Faults) : OpRes Unit :=
  match takeFault fs with
  | (some e, fs') => (.error e, σ, fs')
  | (none, fs') =>
    match getRes σ.secrets name with
    | some old =>
      (.ok (), { σ with secrets := (name, data ++ old) :: eraseKey name σ.secrets }, fs')
    | none => (.error (.k8s 404), σ, fs')

/-- `k8s.createService`. -/
def createServiceOp (name : String) (data : ServiceData) (σ : Cluster) (fs : Faults) : OpRes Unit :=
  match takeFault fs with
  | (some e, fs') => (.error e, σ, fs')
  | (none, fs') =>
    match getRes σ.services name with
    | some _ => (.error (.k8s 409), σ, fs')
    | none => (.ok (), { σ with services := (name, data) :: σ.services }, fs')

/-- `k8s.getService`: the facade catches every error and returns `null`. -/
def getServiceOp (name : String) (σ : Cluster) (fs : Faults) : Option ServiceData × Faults :=
  match takeFault fs with
  | (some _, fs') => (none, fs')
  | (none, fs') => (getRes σ.services name, fs')

/-- `k8s.deleteService`: every error is suppressed. -/
def deleteServiceOp (name : String) (σ : Cluster) (fs : Faults) : Cluster × Faults :=
  match takeFault fs with
  | (some _, fs') => (σ, fs')
  | (none, fs') => ({ σ with services := eraseKey name σ.services }, fs')

/-- `k8s.createStatefulSet`. -/
def createStatefulSetOp (name : String) (data : Sts) (σ : Cluster) (fs : Faults) : OpRes Unit :=
  match takeFault fs with
  | (some e, fs') => (.error e, σ, fs')
  | (none, fs') =>
    match getRes σ.stss name with
    | some _ => (.error (.k8s 409), σ, fs')
    | none => (.ok (), { σ with stss := (name, data) :: σ.stss }, fs')

/-- `k8s.getStatefulSet`. -/
def getStatefulSetOp (name : String) (σ : Cluster) (fs : Faults) : Except Err Sts × Faults :=
  match takeFault fs with
  | (some e, fs') => (.error e, fs')
  | (none, fs') =>
    match getRes σ.stss name with
    | some d => (.ok d, fs')
    | none => (.error (.k8s 404), fs')

/-- `k8s.deleteStatefulSet` (foreground propagation; every error is
suppressed). -/
def deleteStatefulSetOp (name : String) (σ : Cluster) (fs : Faults) : Cluster × Faults :=
  match takeFault fs with
  | (some _, fs') => (σ, fs')
  | (none, fs') => ({ σ with stss := eraseKey name σ.stss }, fs')

/-- `k8s.createCronJob`. -/
def createCronJobOp (name : String) (data : CronJob) (σ : Cluster) (fs : Faults) : OpRes Unit :=
  match takeFault fs with
  | (some e, fs') => (.error e, σ, fs')
  | (none, fs') =>
    match getRes σ.crons name with
    | some _ => (.error (.k8s 409), σ, fs')
    | none => (.ok (), { σ with crons := (name, data) :: σ.crons }, fs')

/-- `k8s.getCronJob`. -/
def getCronJobOp (name : String) (σ : Cluster) (fs : Faults) : Except Err CronJob × Faults :=
  match takeFault fs with
  | (some e, fs') => (.error e, fs')
  | (none, fs') =>
    match getRes σ.crons name with
    | some d => (.ok d, fs')
    | none => (.error (.k8s 404), fs')

/-- `k8s.deleteCronJob`: every error is suppressed. -/
def deleteCronJobOp (name : String) (σ : Cluster) (fs : Faults) : Cluster × Faults :=
  match takeFault fs with
  | (some _, fs') => (σ, fs')
  | (none, fs') => ({ σ with crons := eraseKey name σ.crons }, fs')

/-- `k8s.createJob` (only the job name is tracked). -/
def createJobOp (name : String) (σ : Cluster) (fs : Faults) : OpRes Unit :=
  match takeFault fs with
  | (some e, fs') => (.error e, σ, fs')
  | (none, fs') =>
    if σ.jobs.contains name then (.error (.k8s 409), σ, fs')
    else (.ok (), { σ with jobs := name :: σ.jobs }, fs')

/-- `k8s.deletePVC`: the facade does not suppress errors here (callers
do). -/
def deletePVCOp (name : String) (σ : Cluster) (fs : Faults) : OpRes Unit :=
  match takeFault fs with
  | (some e, fs') => (.error e, σ, fs')
  | (none, fs') =>
    if σ.pvcs.contains name then
      (.ok (), { σ with pvcs := σ.pvcs.filter (fun p => p ≠ name) }, fs')
    else (.error (.k8s 404), σ, fs')

/-! ## Resource builders (`src/lib/k8s/builder.ts`)

Only the parts of the rendered resources that the services later read back
are carried: the secret payload, the service ports (ingress is assigned by
the load balancer later, so it starts empty), the workload labels and the
cron job's schedule and job template. -/

/-- `createCredentialsSecretObject`: the `stringData` payload. -/
def createCredentialsSecretObject (username password dbName version backupSchedule : String) : KVs :=
  [("username", username), ("password", password), ("db_name", dbName),
   ("version", version), ("backup_schedule", backupSchedule)]

/-- `createServiceObject`: one port, the strategy's default; no ingress
yet. -/
def createServiceObject (strategy : Strategy) : ServiceData :=
  { ports := [strategy.getDefaultPort], ingressIps := [] }

/-- `createStatefulSetObject`: the labels (`app`, `managed-by`,
`dataforge.db/type`) and an empty status. -/
def createStatefulSetObject (name : String) (strategy : Strategy) : Sts :=
  { labels := [("app", name), ("managed-by", "dataforge"),
               ("dataforge.db/type", strategy.getDbType)],
    statusReplicas := none, statusReadyReplicas := none }

/-- The five S3 environment variables the builder appends to the backup
container, all referencing the global credentials secret. -/
def s3EnvVars : List EnvVarSpec :=
  [ { name := "S3_ACCESS_KEY", src := .secretRef "dataforge-s3-credentials" "access-key" },
    { name := "S3_SECRET_KEY", src := .secretRef "dataforge-s3-credentials" "secret-key" },
    { name := "S3_ENDPOINT", src := .secretRef "dataforge-s3-credentials" "endpoint" },
    { name := "S3_BUCKET", src := .secretRef "dataforge-s3-credentials" "bucket" },
    { name := "S3_REGION", src := .secretRef "dataforge-s3-credentials" "region" } ]

/-- `createBackupCronJobObject`: `null` exactly when the strategy supplies
no backup configuration. -/
def createBackupCronJobObject (name schedule dbSecretName dbName dbVersion : String)
    (strategy : Strategy) : Option CronJob :=
  (strategy.getBackupConfig name dbSecretName dbName dbVersion).map
    (fun cfg => { schedule := schedule, jobTemplate := some { cfg with env := cfg.env ++ s3EnvVars } })

/-! ## Storage service (`src/lib/storage.ts`) -/

/-- Whether `s` starts with `pre` (the `startsWith` test on object keys,
spelled out on the character lists). -/
def strStartsWith (s pre : String) : Bool := pre.data.isPrefixOf s.data

/-- The substring after the last slash of a key: the value of
`key.split(slash).pop()`. -/
def lastSegment (s : String) : String :=
  String.mk ((s.data.reverse.takeWhile (fun c => c ≠ '/')).reverse)

/-- One entry of the backup listing (`sizeMb`, a floating-point rounding of
the object size, is not carried: no verified claim observes it). -/
structure BackupFile where
  key : String
  filename : String
  lastModified : Nat
deriving Repr, DecidableEq

/-- The comparator of the listing sort: newest first (`b.lastModified -
a.lastModified` in the source). -/
def newestFirst (a b : BackupFile) : Prop := b.lastModified ≤ a.lastModified

instance : DecidableRel newestFirst := fun a b => Nat.decLe b.lastModified a.lastModified

instance : IsTotal BackupFile newestFirst :=
  ⟨fun a b => (Nat.le_total b.lastModified a.lastModified).imp (fun h => h) (fun h => h)⟩

instance : IsTrans BackupFile newestFirst :=
  ⟨fun _ _ _ hab hbc => Nat.le_trans hbc hab⟩

/-- `StorageService.listBackups`: list the objects under the `name/` prefix,
map them to `BackupFile`s and sort newest first (JavaScript `Array.sort` is
stable, modelled by insertion sort); any S3 error makes the method return
the empty list. -/
def listBackups (name : String) (s3 : List S3Obj) (fault : Option Err) : List BackupFile :=
  match fault with
  | some _ => []
  | none =>
    List.insertionSort newestFirst
      ((s3.filter (fun o => strStartsWith o.key (name ++ "/"))).map
        (fun o =>
          { key := o.key,
            filename := jsOrStr (some (lastSegment o.key)) "unknown",
            lastModified := o.lastModified }))

/-- `StorageService.deleteBackupsFolder`: batch-delete everything under the
prefix; every error is swallowed. -/
def deleteBackupsFolder (name : String) (s3 : List S3Obj) (fault : Option Err) : List S3Obj :=
  match fault with
  | some _ => s3
  | none => s3.filter (fun o => ¬ strStartsWith o.key (name ++ "/"))

/-- `StorageService.pruneBackups`: keep the newest `keep` backups, delete
the rest, return how many were deleted. -/
def pruneBackups (dbName : String) (keep : Nat) (s3 : List S3Obj)
    (listFault delFault : Option Err) : Except Err Nat × List S3Obj :=
  let backups := listBackups dbName s3 listFault
  if backups.length ≤ keep then (.ok 0, s3)
  else
    let toDelete := backups.drop keep
    match delFault with
    | some _ => (.error (.msg "Failed to prune backups"), s3)
    | none =>
      (.ok toDelete.length,
       s3.filter (fun o => ¬ (toDelete.map (fun b => b.key)).contains o.key))

/-- `StorageService.getBackupStream`: resolves to a stream of the stored
object (modelled by its key); a missing key is an S3 client error. -/
def getBackupStreamOp (key : String) (s3 : List S3Obj) : Except Err String :=
  if s3.any (fun o => o.key == key) then .ok key else .error (.msg "NoSuchKey")

/-! ## Backup service (`src/lib/services/backup.ts`) -/

/-- The payload of the global S3 credentials secret. -/
def s3SecretData (cfg : Config) : KVs :=
  [("access-key", cfg.s3AccessKey), ("secret-key", cfg.s3SecretKey),
   ("endpoint", cfg.s3Endpoint), ("bucket", cfg.s3Bucket), ("region", cfg.s3Region)]

/-- `ensureGlobalS3Secret`: create the global secret; on a 409 conflict
patch it (patch failures are only logged); any other failure is only
logged.  The function never throws. -/
def ensureGlobalS3Secret (cfg : Config) (σ : Cluster) (fs : Faults) : Cluster × Faults :=
  match createSecretOp "dataforge-s3-credentials" (s3SecretData cfg) σ fs with
  | (.ok _, σ', fs') => (σ', fs')
  | (.error e, σ', fs') =>
    if e = .k8s 409 then
      match patchSecretOp "dataforge-s3-credentials" (s3SecretData cfg) σ' fs' with
      | (_, σ'', fs'') => (σ'', fs'')
    else (σ', fs')

/-- The catch clause of `triggerBackup`: a Kubernetes 404 becomes the
backup-configuration-not-found error, everything else a generic failure. -/
def triggerBackupCatch (e : Err) (σ : Cluster) (fs : Faults) : OpRes String :=
  (.error (.msg (if e = .k8s 404 then "Backup configuration not found"
                 else "Failed to trigger backup")), σ, fs)

/-- `triggerBackup`: ensure the global secret, read the scheduled cron job,
check its template, and submit a one-off clone named with the current
timestamp `now`. -/
def triggerBackup (cfg : Config) (name : String) (now : Nat) (σ : Cluster) (fs : Faults) :
    OpRes String :=
  let cronJobName := name ++ "-backup"
  let manualJobName := name ++ "-manual-backup-" ++ toString now
  let (σ1, fs1) := ensureGlobalS3Secret cfg σ fs
  match getCronJobOp cronJobName σ1 fs1 with
  | (.error e, fs2) => triggerBackupCatch e σ1 fs2
  | (.ok cron, fs2) =>
    match cron.jobTemplate with
    | none => triggerBackupCatch (.msg "CronJob definition invalid") σ1 fs2
    | some _ =>
      match createJobOp manualJobName σ1 fs2 with
      | (.error e, σ2, fs3) => triggerBackupCatch e σ2 fs3
      | (.ok _, σ2, fs3) => (.ok manualJobName, σ2, fs3)

/-- One invocation of the Kubernetes exec subsystem (the byte-stream wiring
itself is not carried; a claim only observes which commands were run
where). -/
structure ExecCall where
  ns : String
  pod : String
  container : String
  command : List String
deriving Repr, DecidableEq

/-- `getDatabaseDumpStream`: resolve the engine from the workload's
`dataforge.db/type` label (an absent or empty label is an error before any
exec channel is opened), then exec the strategy's dump command in the
`database` container.  Returns the outcome, the exec calls made, and the
remaining schedule. -/
def getDatabaseDumpStream (cfg : Config) (name : String) (σ : Cluster) (fs : Faults) :
    Except Err Unit × List ExecCall × Faults :=
  let podName := name ++ "-statefulset-0"
  match getStatefulSetOp (name ++ "-statefulset") σ fs with
  | (.error e, fs') => (.error e, [], fs')
  | (.ok sts, fs') =>
    match getRes sts.labels "dataforge.db/type" with
    | none => (.error (.msg "Could not determine database type"), [], fs')
    | some t =>
      if t = "" then (.error (.msg "Could not determine database type"), [], fs')
      else
        match getStrategy t with
        | .error e => (.error e, [], fs')
        | .ok strategy =>
          let call : ExecCall :=
            { ns := cfg.namespaceName, pod := podName, container := "database",
              command := strategy.createDumpCommand }
          match takeFault fs' with
          | (some e, fs'') => (.error e, [call], fs'')
          | (none, fs'') => (.ok (), [call], fs'')

/-- `restoreDatabase`: resolve the engine from the workload label, falling
back to `postgres` when the label is absent or empty; open the S3 read
stream; best-effort run the pre-restore command (failures swallowed); then
exec the restore command with the stream as stdin. -/
def restoreDatabase (cfg : Config) (name backupKey : String) (σ : Cluster) (fs : Faults) :
    Except Err Unit × List ExecCall × Faults :=
  let podName := name ++ "-statefulset-0"
  match getStatefulSetOp (name ++ "-statefulset") σ fs with
  | (.error e, fs') => (.error e, [], fs')
  | (.ok sts, fs') =>
    let t := jsOrStr (getRes sts.labels "dataforge.db/type") "postgres"
    match getStrategy t with
    | .error e => (.error e, [], fs')
    | .ok strategy =>
      match getBackupStreamOp backupKey σ.s3 with
      | .error e => (.error e, [], fs')
      | .ok _stream =>
        let preCall : ExecCall :=
          { ns := cfg.namespaceName, pod := podName, container := "database",
            command := strategy.createPreRestoreCommand }
        let (_preFault, fs1) := takeFault fs'
        let restoreCall : ExecCall :=
          { ns := cfg.namespaceName, pod := podName, container := "database",
            command := strategy.createRestoreCommand }
        match takeFault fs1 with
        | (some e, fs2) => (.error e, [preCall, restoreCall], fs2)
        | (none, fs2) => (.ok (), [preCall, restoreCall], fs2)

/-! ## Lifecycle orchestrator (`src/lib/services/database.ts`) -/

/-- `CreateDatabaseRequest`. -/
structure CreateDatabaseRequest where
  name : String
  type : DbType
  version : String
  dbName : Option String
  backupSchedule : Option String
deriving Repr, DecidableEq

/-- `DatabaseInstance` as assembled by the service (`type` is the raw
workload label when listing, hence optional). -/
structure DatabaseInstance where
  name : String
  type : Option String
  status : String
  username : String
  password : String
  internalDbName : String
  ip : Option String
  port : Option Nat
  backupSchedule : String
deriving Repr, DecidableEq

/-- The body of `createDatabase`'s try block: ensure the global secret, then
create secret, service, stateful set, and — only when the strategy provides
a backup configuration — the scheduled cron job. -/
def createDatabaseSteps (cfg : Config) (req : CreateDatabaseRequest) (strategy : Strategy)
    (username password internalDbName secretName : String) (σ : Cluster) (fs : Faults) :
    OpRes DatabaseInstance :=
  let (σ0, fs0) := ensureGlobalS3Secret cfg σ fs
  let schedule := jsOrStr req.backupSchedule "0 3 * * *"
  match createSecretOp secretName
      (createCredentialsSecretObject username password internalDbName req.version schedule)
      σ0 fs0 with
  | (.error e, σ1, fs1) => (.error e, σ1, fs1)
  | (.ok _, σ1, fs1) =>
    match createServiceOp (req.name ++ "-service") (createServiceObject strategy) σ1 fs1 with
    | (.error e, σ2, fs2) => (.error e, σ2, fs2)
    | (.ok _, σ2, fs2) =>
      match createStatefulSetOp (req.name ++ "-statefulset")
          (createStatefulSetObject req.name strategy) σ2 fs2 with
      | (.error e, σ3, fs3) => (.error e, σ3, fs3)
      | (.ok _, σ3, fs3) =>
        let instance_ : DatabaseInstance :=
          { name := req.name, type := some req.type.label, status := "Pending",
            username := username, password := password, internalDbName := internalDbName,
            ip := none, port := none, backupSchedule := schedule }
        match createBackupCronJobObject req.name schedule secretName internalDbName
            req.version strategy with
        | none => (.ok instance_, σ3, fs3)
        | some cronObj =>
          match createCronJobOp (req.name ++ "-backup") cronObj σ3 fs3 with
          | (.error e, σ4, fs4) => (.error e, σ4, fs4)
          | (.ok _, σ4, fs4) => (.ok instance_, σ4, fs4)

/-- `rollbackCreation`: best-effort deletion of secret, service, stateful
set and cron job (each delete suppresses its own errors). -/
def rollbackCreation (name secretName : String) (σ : Cluster) (fs : Faults) :
    Cluster × Faults :=
  let (σ1, fs1) := deleteSecretOp secretName σ fs
  let (σ2, fs2) := deleteServiceOp (name ++ "-service") σ1 fs1
  let (σ3, fs3) := deleteStatefulSetOp (name ++ "-statefulset") σ2 fs2
  deleteCronJobOp (name ++ "-backup") σ3 fs3

/-- `createDatabase`: resolve the strategy, generate credentials, run the
try-block steps; on a Kubernetes 409 report "Database already exists"
without rollback, on any other failure run `rollbackCreation` and re-raise
the original error. -/
def createDatabase (cfg : Config) (req : CreateDatabaseRequest) (randP randU : Nat → Nat)
    (σ : Cluster) (fs : Faults) : OpRes DatabaseInstance :=
  match getStrategy req.type.label with
  | .error e => (.error e, σ, fs)
  | .ok strategy =>
    let password := strategy.createPassword randP
    let username := strategy.createUsername randU
    let internalDbName := strategy.getInternalDbName (jsOrStr req.dbName req.name)
    let secretName := req.name ++ "-secret"
    match createDatabaseSteps cfg req strategy username password internalDbName secretName σ fs with
    | (.ok instance_, σ', fs') => (.ok instance_, σ', fs')
    | (.error e, σ', fs') =>
      if e = .k8s 409 then (.error (.msg "Database already exists"), σ', fs')
      else
        let (σ'', fs'') := rollbackCreation req.name secretName σ' fs'
        (.error e, σ'', fs'')

/-- The try-block outcome of `createDatabase` with the strategy and the
credentials it resolves for the request (used to state the failure
policy). -/
def createDatabaseAttempt (cfg : Config) (req : CreateDatabaseRequest) (randP randU : Nat → Nat)
    (σ : Cluster) (fs : Faults) : OpRes DatabaseInstance :=
  createDatabaseSteps cfg req req.type.strategy
    (req.type.strategy.createUsername randU) (req.type.strategy.createPassword randP)
    (req.type.strategy.getInternalDbName (jsOrStr req.dbName req.name))
    (req.name ++ "-secret") σ fs

/-- The catch clause of `deleteDatabase`: a Kubernetes 404 becomes
"Database not found", everything else propagates. -/
def deleteDatabaseCatch (e : Err) (σ : Cluster) (fs : Faults) : OpRes Unit :=
  if e = .k8s 404 then (.error (.msg "Database not found"), σ, fs) else (.error e, σ, fs)

/-- `deleteDatabase`: read the workload to resolve the engine, best-effort
read the secret to recover the internal database name, then delete the
stateful set, service, secret and cron job (each idempotent), the storage
volume claim (errors only logged) and, if an internal name was recovered,
the instance's backup folder in S3 (fire-and-forget). -/
def deleteDatabase (cfg : Config) (name : String) (σ : Cluster) (fs : Faults) : OpRes Unit :=
  let _ := cfg
  match getStatefulSetOp (name ++ "-statefulset") σ fs with
  | (.error e, fs1) => deleteDatabaseCatch e σ fs1
  | (.ok sts, fs1) =>
    let t := jsOrStr (getRes sts.labels "dataforge.db/type") "postgres"
    match getStrategy t with
    | .error e => deleteDatabaseCatch e σ fs1
    | .ok strategy =>
      let pvcName := strategy.getVolumeName ++ "-" ++ name ++ "-statefulset-0"
      let (internalDbName, fs2) :=
        match getSecretOp (name ++ "-secret") σ fs1 with
        | (.ok data, fs') => (jsOrStr (getRes data "db_name") "", fs')
        | (.error _, fs') => ("", fs')
      let (σ1, fs3) := deleteStatefulSetOp (name ++ "-statefulset") σ fs2
      let (σ2, fs4) := deleteServiceOp (name ++ "-service") σ1 fs3
      let (σ3, fs5) := deleteSecretOp (name ++ "-secret") σ2 fs4
      let (σ4, fs6) := deleteCronJobOp (name ++ "-backup") σ3 fs5
      match deletePVCOp pvcName σ4 fs6 with
      | (_, σ5, fs7) =>
        if internalDbName ≠ "" then
          match takeFault fs7 with
          | (s3Fault, fs8) =>
            (.ok (), { σ5 with s3 := deleteBackupsFolder internalDbName σ5.s3 s3Fault }, fs8)
        else (.ok (), σ5, fs7)

/-- Fault environment of a `listDatabases` run: the outcome of the listing
call and, per resource name, the outcome of the secret and service reads of
the decoration loop. -/
structure ListEnv where
  listFault : Option Err
  secretFault : String → Option Err
  serviceFault : String → Option Err

/-- The secret read inside the decoration loop: a fault or an absent secret
throws, which the loop's try/catch turns into `none`. -/
def fetchSecretL (env : ListEnv) (σ : Cluster) (name : String) : Option KVs :=
  match env.secretFault name with
  | some _ => none
  | none => getRes σ.secrets name

/-- The service read inside the decoration loop: the facade turns every
failure into `null`. -/
def fetchServiceL (env : ListEnv) (σ : Cluster) (name : String) : Option ServiceData :=
  match env.serviceFault name with
  | some _ => none
  | none => getRes σ.services name

/-- The body of the `listDatabases` loop for one stateful set: derive name,
type and status from the workload, then decorate from the secret and the
service, swallowing decoration failures (a thrown secret read leaves every
decoration field at its default; an ingress entry with an empty port list
throws after the ip was assigned, leaving the port unset). -/
def processSts (σ : Cluster) (env : ListEnv) (sts : Sts) : DatabaseInstance :=
  let name := jsOrStr (getRes sts.labels "app") "unknown"
  let type := getRes sts.labels "dataforge.db/type"
  let isReady := jsOrNat sts.statusReadyReplicas 0 == jsOrNat sts.statusReplicas 1
  let status := if isReady then "Running" else "Pending"
  match fetchSecretL env σ (name ++ "-secret") with
  | none =>
    { name := name, type := type, status := status, username := "", password := "",
      internalDbName := "", ip := none, port := none, backupSchedule := "" }
  | some data =>
    let ipPort : Option String × Option Nat :=
      match fetchServiceL env σ (name ++ "-service") with
      | none => (none, none)
      | some svc =>
        if svc.ingressIps.isEmpty then (none, none)
        else (svc.ingressIps.head?, svc.ports.head?)
    { name := name, type := type, status := status,
      username := jsOrStr (getRes data "username") "",
      password := jsOrStr (getRes data "password") "",
      internalDbName := jsOrStr (getRes data "db_name") "",
      ip := ipPort.1, port := ipPort.2,
      backupSchedule := jsOrStr (getRes data "backup_schedule") "" }

/-- The stateful sets matching the `managed-by=dataforge` label selector. -/
def managedStss (σ : Cluster) : List Sts :=
  (σ.stss.map (fun p => p.2)).filter
    (fun sts => getRes sts.labels "managed-by" == some "dataforge")

/-- `listDatabases`: list the managed workloads and decorate each; any
failure of the listing call itself is reported as a generic error. -/
def listDatabases (σ : Cluster) (env : ListEnv) : Except Err (List DatabaseInstance) :=
  match env.listFault with
  | some _ => .error (.msg "Failed to list databases")
  | none => .ok ((managedStss σ).map (processSts σ env))

/-- None of the four per-instance resources of `name` exists. -/
def fourAbsent (name : String) (σ : Cluster) : Prop :=
  getRes σ.secrets (name ++ "-secret") = none
  ∧ getRes σ.services (name ++ "-service") = none
  ∧ getRes σ.stss (name ++ "-statefulset") = none
  ∧ getRes σ.crons (name ++ "-backup") = none

instance (name : String) (σ : Cluster) : Decidable (fourAbsent name σ) := by
  unfold fourAbsent
  infer_instance

/-! ## Concrete fixtures used by witnesses and counterexamples -/

/-- A validated configuration as in a typical deployment. -/
def cfgW : Config :=
  { namespaceName := "dataforge-db", s3AccessKey := "ak", s3SecretKey := "sk",
    s3Endpoint := "http://minio:9000", s3Bucket := "dataforge-backups",
    s3Region := "us-east-1", passwordLength := 16 }

/-- A cluster with no resources and an empty bucket. -/
def emptyCluster : Cluster :=
  { secrets := [], services := [], stss := [], crons := [], jobs := [], pvcs := [], s3 := [] }

/-- A constant byte source (the concrete value of the randomness does not
matter to any property). -/
def zByte : Nat → Nat := fun _ => 0

/-- A postgres creation request. -/
def reqPg : CreateDatabaseRequest :=
  { name := "foo", type := .postgres, version := "16", dbName := none, backupSchedule := none }

/-- A redis creation request. -/
def reqRedis : CreateDatabaseRequest :=
  { name := "bar", type := .redis, version := "7", dbName := none, backupSchedule := none }

/-- A fault-free environment for a listing run. -/
def envNoFault : ListEnv :=
  { listFault := none, secretFault := fun _ => none, serviceFault := fun _ => none }

/-- A cluster in which an unmanaged service already occupies the name
`foo-service` while none of the other `foo` resources exist. -/
def sigmaConflict : Cluster :=
  { emptyCluster with services := [("foo-service", { ports := [80], ingressIps := [] })] }

/-- A bucket holding five backups of `db` (listed out of order) and one
foreign object. -/
def s3Five : List S3Obj :=
  [⟨"db/b3", 10, 30⟩, ⟨"db/b1", 10, 10⟩, ⟨"db/b5", 10, 50⟩, ⟨"other/x", 10, 99⟩,
   ⟨"db/b2", 10, 20⟩, ⟨"db/b4", 10, 40⟩]

/-- A managed workload whose status reports zero replicas and zero ready
replicas (a scaled-down or just-created workload). -/
def stsZero : Sts :=
  { labels := [("app", "db"), ("managed-by", "dataforge"), ("dataforge.db/type", "postgres")],
    statusReplicas := some 0, statusReadyReplicas := some 0 }

/-- A cluster containing only the zero-replica workload. -/
def sigmaZero : Cluster := { emptyCluster with stss := [("db-statefulset", stsZero)] }

/-- A healthy managed workload named `db`. -/
def stsDb : Sts :=
  { labels := [("app", "db"), ("managed-by", "dataforge"), ("dataforge.db/type", "postgres")],
    statusReplicas := some 1, statusReadyReplicas := some 1 }

/-- A cluster where the workload and a populated credentials secret exist
but the service is absent (for example mid-deletion). -/
def sigmaNoService : Cluster :=
  { emptyCluster with
    stss := [("db-statefulset", stsDb)],
    secrets := [("db-secret", [("username", "admin"), ("password", "pw"), ("db_name", "appdb")])] }

/-- A fully provisioned postgres instance named `db`, including its storage
volume claim and stored backups. -/
def sigmaFull : Cluster :=
  { secrets := [("db-secret", [("username", "admin"), ("password", "pw"), ("db_name", "appdb")])],
    services := [("db-service", { ports := [5432], ingressIps := ["10.0.0.5"] })],
    stss := [("db-statefulset", stsDb)],
    crons := [("db-backup", { schedule := "0 3 * * *", jobTemplate := some { image := "postgres:16-alpine", command := [], env := [] } })],
    jobs := [], pvcs := ["postgres-data-db-statefulset-0"],
    s3 := [⟨"appdb/backup_x.sql", 5, 1⟩] }

/-- The cluster state after provisioning the redis instance `bar` on an
empty cluster without faults. -/
def afterRedis : Cluster := (createDatabase cfgW reqRedis zByte zByte emptyCluster []).2.1

/-- The empty cluster after only the global S3 credentials secret was
created (the state reached when creation fails at the first per-instance
step). -/
def sigmaBoom : Cluster :=
  { emptyCluster with secrets := [("dataforge-s3-credentials", s3SecretData cfgW)] }

/-- A workload without the `dataforge.db/type` label, plus a stored backup
object. -/
def sigmaNoLabel : Cluster :=
  { emptyCluster with
    stss := [("db-statefulset", { labels := [("app", "db")], statusReplicas := none,
                                  statusReadyReplicas := none })],
    s3 := [⟨"appdb/backup_x.sql", 5, 1⟩] }

/-! # Theorems

First the generic helper lemmas, then one theorem per claim (with its
witness or counterexample where required). -/

theorem getRes_cons {α : Type} (k key : String) (v : α) (rest : List (String × α)) :
    getRes ((k, v) :: rest) key = if k = key then some v else getRes rest key := rfl

theorem getRes_eraseKey_self {α : Type} (key : String) (l : List (String × α)) :
    getRes (eraseKey key l) key = none := by
  induction l with
  | nil => rfl
  | cons p rest ih =>
    obtain ⟨k, v⟩ := p
    by_cases h : k = key
    · simp [eraseKey, h, ih]
    · simp [eraseKey, getRes, h, ih]

theorem getRes_eraseKey_ne {α : Type} (key key' : String) (l : List (String × α))
    (h : key ≠ key') : getRes (eraseKey key l) key' = getRes l key' := by
  induction l with
  | nil => rfl
  | cons p rest ih =>
    obtain ⟨k, v⟩ := p
    by_cases hk : k = key
    · subst hk; simp [eraseKey, getRes, h, ih]
    · simp [eraseKey, getRes, hk, ih]

theorem eraseKey_of_absent {α : Type} (key : String) (l : List (String × α))
    (h : getRes l key = none) : eraseKey key l = l := by
  induction l with
  | nil => rfl
  | cons p rest ih =>
    obtain ⟨k, v⟩ := p
    by_cases hk : k = key
    · subst hk; simp [getRes] at h
    · simp [getRes, hk] at h
      simp [eraseKey, hk, ih h]

theorem getStrategy_label (t : DbType) : getStrategy t.label = .ok t.strategy := by
  cases t <;> rfl

theorem createSecretOp_cases (name : String) (data : KVs) (σ : Cluster) (fs : Faults) :
    (∃ e, createSecretOp name data σ fs = (.error e, σ, (takeFault fs).2))
    ∨ createSecretOp name data σ fs =
        (.ok (), { σ with secrets := (name, data) :: σ.secrets }, (takeFault fs).2) := by
  unfold createSecretOp
  rcases htf : takeFault fs with ⟨f, fs'⟩
  cases f with
  | none =>
    cases hg : getRes σ.secrets name
    · right; simp [htf, hg]
    · left; exact ⟨.k8s 409, by simp [htf, hg]⟩
  | some e => left; exact ⟨e, by simp [htf]⟩

theorem createServiceOp_cases (name : String) (data : ServiceData) (σ : Cluster) (fs : Faults) :
    (∃ e, createServiceOp name data σ fs = (.error e, σ, (takeFault fs).2))
    ∨ createServiceOp name data σ fs =
        (.ok (), { σ with services := (name, data) :: σ.services }, (takeFault fs).2) := by
  unfold createServiceOp
  rcases htf : takeFault fs with ⟨f, fs'⟩
  cases f with
  | none =>
    cases hg : getRes σ.services name
    · right; simp [htf, hg]
    · left; exact ⟨.k8s 409, by simp [htf, hg]⟩
  | some e => left; exact ⟨e, by simp [htf]⟩

theorem createStatefulSetOp_cases (name : String) (data : Sts) (σ : Cluster) (fs : Faults) :
    (∃ e, createStatefulSetOp name data σ fs = (.error e, σ, (takeFault fs).2))
    ∨ createStatefulSetOp name data σ fs =
        (.ok (), { σ with stss := (name, data) :: σ.stss }, (takeFault fs).2) := by
  unfold createStatefulSetOp
  rcases htf : takeFault fs with ⟨f, fs'⟩
  cases f with
  | none =>
    cases hg : getRes σ.stss name
    · right; simp [htf, hg]
    · left; exact ⟨.k8s 409, by simp [htf, hg]⟩
  | some e => left; exact ⟨e, by simp [htf]⟩

theorem createCronJobOp_cases (name : String) (data : CronJob) (σ : Cluster) (fs : Faults) :
    (∃ e, createCronJobOp name data σ fs = (.error e, σ, (takeFault fs).2))
    ∨ createCronJobOp name data σ fs =
        (.ok (), { σ with crons := (name, data) :: σ.crons }, (takeFault fs).2) := by
  unfold createCronJobOp
  rcases htf : takeFault fs with ⟨f, fs'⟩
  cases f with
  | none =>
    cases hg : getRes σ.crons name
    · right; simp [htf, hg]
    · left; exact ⟨.k8s 409, by simp [htf, hg]⟩
  | some e => left; exact ⟨e, by simp [htf]⟩

theorem ensureGlobalS3Secret_secretsOnly (cfg : Config) (σ : Cluster) (fs : Faults) :
    ∃ sec fs', ensureGlobalS3Secret cfg σ fs = ({ σ with secrets := sec }, fs') := by
  unfold ensureGlobalS3Secret patchSecretOp
  rcases createSecretOp_cases "dataforge-s3-credentials" (s3SecretData cfg) σ fs with
    ⟨e, heq⟩ | heq
  · rw [heq]
    by_cases h409 : e = .k8s 409
    · subst h409
      rcases htf : takeFault (takeFault fs).2 with ⟨f, fs'⟩
      cases f with
      | none =>
        cases hg : getRes σ.secrets "dataforge-s3-credentials" with
        | none => exact ⟨σ.secrets, fs', by simp [htf, hg]⟩
        | some old =>
          exact ⟨("dataforge-s3-credentials",
              s3SecretData cfg ++ old) :: eraseKey "dataforge-s3-credentials" σ.secrets,
            fs', by simp [htf, hg]⟩
      | some e' => exact ⟨σ.secrets, fs', by simp [htf]⟩
    · exact ⟨σ.secrets, (takeFault fs).2, by simp [h409]⟩
  · rw [heq]
    exact ⟨("dataforge-s3-credentials", s3SecretData cfg) :: σ.secrets, (takeFault fs).2, rfl⟩

theorem ensureGlobalS3Secret_empty (cfg : Config) (σ : Cluster) :
    ∃ sec, ensureGlobalS3Secret cfg σ [] = ({ σ with secrets := sec }, []) := by
  unfold ensureGlobalS3Secret createSecretOp patchSecretOp
  cases hg : getRes σ.secrets "dataforge-s3-credentials" with
  | none =>
    exact ⟨("dataforge-s3-credentials", s3SecretData cfg) :: σ.secrets,
      by simp [takeFault, hg]⟩
  | some old =>
    exact ⟨("dataforge-s3-credentials",
        s3SecretData cfg ++ old) :: eraseKey "dataforge-s3-credentials" σ.secrets,
      by simp [takeFault, hg]⟩

theorem createSecretOp_ok_state {name : String} {data : KVs} {σ : Cluster} {fs : Faults}
    {a : Unit} {σ₂ : Cluster} {fs₂ : Faults}
    (h : createSecretOp name data σ fs = (.ok a, σ₂, fs₂)) :
    σ₂ = { σ with secrets := (name, data) :: σ.secrets } := by
  rcases createSecretOp_cases name data σ fs with ⟨e, hC⟩ | hC <;> rw [hC] at h
  · simp at h
  · simp only [Prod.mk.injEq] at h
    exact h.2.1.symm

theorem createServiceOp_ok_state {name : String} {data : ServiceData} {σ : Cluster}
    {fs : Faults} {a : Unit} {σ₂ : Cluster} {fs₂ : Faults}
    (h : createServiceOp name data σ fs = (.ok a, σ₂, fs₂)) :
    σ₂ = { σ with services := (name, data) :: σ.services } := by
  rcases createServiceOp_cases name data σ fs with ⟨e, hC⟩ | hC <;> rw [hC] at h
  · simp at h
  · simp only [Prod.mk.injEq] at h
    exact h.2.1.symm

theorem createStatefulSetOp_ok_state {name : String} {data : Sts} {σ : Cluster}
    {fs : Faults} {a : Unit} {σ₂ : Cluster} {fs₂ : Faults}
    (h : createStatefulSetOp name data σ fs = (.ok a, σ₂, fs₂)) :
    σ₂ = { σ with stss := (name, data) :: σ.stss } := by
  rcases createStatefulSetOp_cases name data σ fs with ⟨e, hC⟩ | hC <;> rw [hC] at h
  · simp at h
  · simp only [Prod.mk.injEq] at h
    exact h.2.1.symm

theorem createCronJobOp_ok_state {name : String} {data : CronJob} {σ : Cluster}
    {fs : Faults} {a : Unit} {σ₂ : Cluster} {fs₂ : Faults}
    (h : createCronJobOp name data σ fs = (.ok a, σ₂, fs₂)) :
    σ₂ = { σ with crons := (name, data) :: σ.crons } := by
  rcases createCronJobOp_cases name data σ fs with ⟨e, hC⟩ | hC <;> rw [hC] at h
  · simp at h
  · simp only [Prod.mk.injEq] at h
    exact h.2.1.symm

theorem createDatabaseSteps_ok (cfg : Config) (req : CreateDatabaseRequest)
    (strategy : Strategy) (u p i s : String) (σ : Cluster) (fs : Faults)
    (inst : DatabaseInstance) (σ' : Cluster) (fs' : Faults)
    (h : createDatabaseSteps cfg req strategy u p i s σ fs = (.ok inst, σ', fs')) :
    (getRes σ'.secrets s).isSome
    ∧ (getRes σ'.services (req.name ++ "-service")).isSome
    ∧ (getRes σ'.stss (req.name ++ "-statefulset")).isSome
    ∧ ((createBackupCronJobObject req.name (jsOrStr req.backupSchedule "0 3 * * *") s i
          req.version strategy).isSome →
        (getRes σ'.crons (req.name ++ "-backup")).isSome)
    ∧ ((createBackupCronJobObject req.name (jsOrStr req.backupSchedule "0 3 * * *") s i
          req.version strategy) = none →
        σ'.crons = σ.crons) := by
  obtain ⟨sec, fs0, hens⟩ := ensureGlobalS3Secret_secretsOnly cfg σ fs
  unfold createDatabaseSteps at h
  rw [hens] at h
  simp only [] at h
  rcases hop1 : createSecretOp s
      (createCredentialsSecretObject u p i req.version (jsOrStr req.backupSchedule "0 3 * * *"))
      { σ with secrets := sec } fs0 with ⟨r1, σ1, fs1⟩
  rw [hop1] at h
  cases r1 with
  | error e => simp at h
  | ok a1 =>
    simp only [] at h
    have hσ1 := createSecretOp_ok_state hop1
    rcases hop2 : createServiceOp (req.name ++ "-service") (createServiceObject strategy)
        σ1 fs1 with ⟨r2, σ2, fs2⟩
    rw [hop2] at h
    cases r2 with
    | error e => simp at h
    | ok a2 =>
      simp only [] at h
      have hσ2 := createServiceOp_ok_state hop2
      rcases hop3 : createStatefulSetOp (req.name ++ "-statefulset")
          (createStatefulSetObject req.name strategy) σ2 fs2 with ⟨r3, σ3, fs3⟩
      rw [hop3] at h
      cases r3 with
      | error e => simp at h
      | ok a3 =>
        simp only [] at h
        have hσ3 := createStatefulSetOp_ok_state hop3
        cases hcron : createBackupCronJobObject req.name (jsOrStr req.backupSchedule "0 3 * * *")
            s i req.version strategy with
        | none =>
          rw [hcron] at h
          simp only [Prod.mk.injEq] at h
          obtain ⟨-, hσ', -⟩ := h
          subst hσ' hσ3 hσ2 hσ1
          refine ⟨by simp [getRes], by simp [getRes], by simp [getRes], ?_, fun _ => rfl⟩
          intro hcc
          simp [hcron] at hcc
        | some cronObj =>
          rw [hcron] at h
          simp only [] at h
          rcases hop4 : createCronJobOp (req.name ++ "-backup") cronObj σ3 fs3 with ⟨r4, σ4, fs4⟩
          rw [hop4] at h
          cases r4 with
          | error e => simp at h
          | ok a4 =>
            simp only [Prod.mk.injEq] at h
            obtain ⟨-, hσ', -⟩ := h
            have hσ4 := createCronJobOp_ok_state hop4
            subst hσ' hσ4 hσ3 hσ2 hσ1
            refine ⟨by simp [getRes], by simp [getRes], by simp [getRes],
              fun _ => by simp [getRes], ?_⟩
            intro hcc
            simp at hcc
/-- C4: for a request whose engine strategy supplies no backup
configuration, a successful `createDatabase` leaves the cron jobs of the
cluster unchanged (no scheduled-backup resource is created), and
`triggerBackup` for an instance without a scheduled cron job fails with
"Backup configuration not found" and creates no one-off job; composing the
two, triggering a backup right after such a create fails that way. -/
theorem noBackupConfig_spec (cfg : Config) (req : CreateDatabaseRequest)
    (rP rU : Nat → Nat) (σ : Cluster) (fs : Faults) (now : Nat)
    (hb : ∀ a b c d, req.type.strategy.getBackupConfig a b c d = none) :
    (∀ inst σ' fs', createDatabase cfg req rP rU σ fs = (.ok inst, σ', fs') →
        σ'.crons = σ.crons)
    ∧ (∀ name σt, getRes σt.crons (name ++ "-backup") = none →
        (triggerBackup cfg name now σt []).1 = .error (.msg "Backup configuration not found")
        ∧ (triggerBackup cfg name now σt []).2.1.jobs = σt.jobs)
    ∧ (∀ inst σ' fs', createDatabase cfg req rP rU σ fs = (.ok inst, σ', fs') →
        getRes σ.crons (req.name ++ "-backup") = none →
        (triggerBackup cfg req.name now σ' []).1 =
          .error (.msg "Backup configuration not found")) := by
  have hcronNone : ∀ sched sn,
      createBackupCronJobObject req.name sched sn
        (req.type.strategy.getInternalDbName (jsOrStr req.dbName req.name)) req.version
        req.type.strategy = none := by
    intro sched sn
    simp [createBackupCronJobObject, hb]
  have part1 : ∀ inst σ' fs', createDatabase cfg req rP rU σ fs = (.ok inst, σ', fs') →
      σ'.crons = σ.crons := by
    intro inst σ' fs' h
    unfold createDatabase at h
    rw [getStrategy_label] at h
    simp only [] at h
    rcases hst : createDatabaseSteps cfg req req.type.strategy
        (req.type.strategy.createUsername rU) (req.type.strategy.createPassword rP)
        (req.type.strategy.getInternalDbName (jsOrStr req.dbName req.name))
        (req.name ++ "-secret") σ fs with ⟨r, σs, fss⟩
    rw [hst] at h
    cases r with
    | ok inst0 =>
      simp only [Prod.mk.injEq] at h
      obtain ⟨-, hσ, -⟩ := h
      subst hσ
      exact (createDatabaseSteps_ok cfg req req.type.strategy _ _ _ _ σ fs _ _ _ hst).2.2.2.2
        (hcronNone _ _)
    | error e =>
      by_cases h409 : e = .k8s 409 <;> simp [h409] at h
  have part2 : ∀ name σt, getRes σt.crons (name ++ "-backup") = none →
      (triggerBackup cfg name now σt []).1 = .error (.msg "Backup configuration not found")
      ∧ (triggerBackup cfg name now σt []).2.1.jobs = σt.jobs := by
    intro name σt hcr
    obtain ⟨sec, hens⟩ := ensureGlobalS3Secret_empty cfg σt
    unfold triggerBackup
    rw [hens]
    simp [getCronJobOp, takeFault, hcr, triggerBackupCatch]
  refine ⟨part1, part2, ?_⟩
  intro inst σ' fs' h hcr
  have hcrons := part1 inst σ' fs' h
  exact (part2 req.name σ' (by rw [hcrons]; exact hcr)).1

/-- Witness for C4: provisioning redis instance `bar` on an empty cluster
creates no cron job, and triggering a backup afterwards fails with the
backup-configuration error without creating a job. -/
theorem noBackupConfig_spec_witness :
    (triggerBackup cfgW "bar" 0 afterRedis []).1 =
      .error (.msg "Backup configuration not found")
    ∧ (triggerBackup cfgW "bar" 0 afterRedis []).2.1.jobs = afterRedis.jobs :=
  (noBackupConfig_spec cfgW reqRedis zByte zByte emptyCluster [] 0
      (fun _ _ _ _ => rfl)).2.1 "bar" afterRedis (by decide)

set_option maxHeartbeats 1000000 in
theorem deleteDatabase_noFault_core (cfg : Config) (name : String) (σ : Cluster)
    (sts : Sts) (strategy : Strategy)
    (h1 : getRes σ.stss (name ++ "-statefulset") = some sts)
    (h2 : getStrategy (jsOrStr (getRes sts.labels "dataforge.db/type") "postgres") =
      .ok strategy) :
    (deleteDatabase cfg name σ []).1 = .ok ()
    ∧ fourAbsent name (deleteDatabase cfg name σ []).2.1
    ∧ (deleteDatabase cfg name ((deleteDatabase cfg name σ []).2.1) []).1 =
        .error (.msg "Database not found") := by
  cases hsec : getRes σ.secrets (name ++ "-secret") with
  | none =>
    by_cases hp : (strategy.getVolumeName ++ "-" ++ name ++ "-statefulset-0") ∈ σ.pvcs <;>
      simp [deleteDatabase, getStatefulSetOp, getSecretOp, deleteStatefulSetOp,
        deleteServiceOp, deleteSecretOp, deleteCronJobOp, deletePVCOp, takeFault, h1, h2,
        hsec, hp, fourAbsent, getRes_eraseKey_self, deleteDatabaseCatch]
  | some data =>
    by_cases hd : jsOrStr (getRes data "db_name") "" = "" <;>
    by_cases hp : (strategy.getVolumeName ++ "-" ++ name ++ "-statefulset-0") ∈ σ.pvcs <;>
      simp [deleteDatabase, getStatefulSetOp, getSecretOp, deleteStatefulSetOp,
        deleteServiceOp, deleteSecretOp, deleteCronJobOp, deletePVCOp, takeFault, h1, h2,
        hsec, hp, hd, fourAbsent, getRes_eraseKey_self, deleteDatabaseCatch,
        deleteBackupsFolder]

theorem rollbackCreation_noFaults (n s : String) (σ : Cluster) :
    rollbackCreation n s σ [] =
      ({ σ with secrets := eraseKey s σ.secrets,
                services := eraseKey (n ++ "-service") σ.services,
                stss := eraseKey (n ++ "-statefulset") σ.stss,
                crons := eraseKey (n ++ "-backup") σ.crons }, []) := rfl

theorem createDatabase_eq_attempt (cfg : Config) (req : CreateDatabaseRequest)
    (randP randU : Nat → Nat) (σ : Cluster) (fs : Faults) :
    createDatabase cfg req randP randU σ fs =
      (match createDatabaseAttempt cfg req randP randU σ fs with
       | (.ok inst, σ', fs') => (.ok inst, σ', fs')
       | (.error e, σ', fs') =>
         if e = .k8s 409 then (.error (.msg "Database already exists"), σ', fs')
         else
           let r := rollbackCreation req.name (req.name ++ "-secret") σ' fs'
           (.error e, r.1, r.2)) := by
  unfold createDatabase createDatabaseAttempt
  rw [getStrategy_label]

/-- C1: whenever the try-block of `createDatabase` fails, a Kubernetes 409
from any step is reported as "Database already exists" with no rollback
(the state is exactly the failure-point state); any other error triggers
the compensating deletion of the per-instance secret, service, workload
and cron job and re-raises the original error, for every fault schedule —
so compensation errors are never propagated — and when the compensation
deletes themselves run fault-free all four per-instance resources are
absent afterwards. -/
theorem createDatabase_failure_policy (cfg : Config) (req : CreateDatabaseRequest)
    (randP randU : Nat → Nat) (σ : Cluster) (fs : Faults) (e : Err) (σ₁ : Cluster)
    (fs₁ : Faults)
    (h : createDatabaseAttempt cfg req randP randU σ fs = (.error e, σ₁, fs₁)) :
    (e = .k8s 409 →
      createDatabase cfg req randP randU σ fs =
        (.error (.msg "Database already exists"), σ₁, fs₁))
    ∧ (e ≠ .k8s 409 →
        (createDatabase cfg req randP randU σ fs).1 = .error e
        ∧ (createDatabase cfg req randP randU σ fs).2 =
            rollbackCreation req.name (req.name ++ "-secret") σ₁ fs₁
        ∧ (fs₁ = [] →
            fourAbsent req.name (createDatabase cfg req randP randU σ fs).2.1)) := by
  rw [createDatabase_eq_attempt, h]
  constructor
  · intro h409
    simp [h409]
  · intro hne
    simp only [if_neg hne]
    refine ⟨trivial, trivial, ?_⟩
    intro h0
    subst h0
    rw [rollbackCreation_noFaults]
    simp [fourAbsent, getRes_eraseKey_self]

/-- Witness for C1: a transport fault on the credentials-secret creation is
re-raised unchanged and the compensation leaves no per-instance
resource. -/
theorem createDatabase_failure_policy_witness :
    (createDatabase cfgW reqPg zByte zByte emptyCluster [none, some (.msg "boom")]).1 =
      .error (.msg "boom")
    ∧ fourAbsent "foo"
        (createDatabase cfgW reqPg zByte zByte emptyCluster [none, some (.msg "boom")]).2.1 :=
  have h : createDatabaseAttempt cfgW reqPg zByte zByte emptyCluster
      [none, some (.msg "boom")] = (.error (.msg "boom"), sigmaBoom, []) := by decide
  ⟨((createDatabase_failure_policy cfgW reqPg zByte zByte emptyCluster
      [none, some (.msg "boom")] (.msg "boom") sigmaBoom [] h).2 (by decide)).1,
   ((createDatabase_failure_policy cfgW reqPg zByte zByte emptyCluster
      [none, some (.msg "boom")] (.msg "boom") sigmaBoom [] h).2 (by decide)).2.2 rfl⟩

/-- C2 (amended): when `createDatabase` succeeds, the per-instance secret,
service and workload all exist, and so does the cron job whenever the
engine provides a backup configuration; when the try block fails with
anything other than a 409 and the compensation deletes run fault-free, all
four resources are absent afterwards; after a successful fault-free
`deleteDatabase` all four are likewise absent.  A 409 arising after earlier steps
already created resources is reported as "Database already exists" with no
rollback, so already-created resources are then left in place (see the
counterexample). -/
theorem resourceSet_all_or_nothing (cfg : Config) (req : CreateDatabaseRequest)
    (randP randU : Nat → Nat) (σ : Cluster) (fs : Faults) :
    (∀ inst σ' fs', createDatabase cfg req randP randU σ fs = (.ok inst, σ', fs') →
        (getRes σ'.secrets (req.name ++ "-secret")).isSome
        ∧ (getRes σ'.services (req.name ++ "-service")).isSome
        ∧ (getRes σ'.stss (req.name ++ "-statefulset")).isSome
        ∧ ((req.type.strategy.getBackupConfig req.name (req.name ++ "-secret")
              (req.type.strategy.getInternalDbName (jsOrStr req.dbName req.name))
              req.version).isSome →
            (getRes σ'.crons (req.name ++ "-backup")).isSome))
    ∧ (∀ e σ₁, createDatabaseAttempt cfg req randP randU σ fs = (.error e, σ₁, []) →
        e ≠ .k8s 409 →
        fourAbsent req.name (createDatabase cfg req randP randU σ fs).2.1)
    ∧ (∀ name σd sts strategy, getRes σd.stss (name ++ "-statefulset") = some sts →
        getStrategy (jsOrStr (getRes sts.labels "dataforge.db/type") "postgres") =
          .ok strategy →
        (deleteDatabase cfg name σd []).1 = .ok ()
        ∧ fourAbsent name (deleteDatabase cfg name σd []).2.1) := by
  refine ⟨?_, ?_, ?_⟩
  · intro inst σ' fs' h
    rw [createDatabase_eq_attempt] at h
    rcases hat : createDatabaseAttempt cfg req randP randU σ fs with ⟨r, σa, fsa⟩
    rw [hat] at h
    cases r with
    | error e => by_cases h409 : e = .k8s 409 <;> simp [h409] at h
    | ok inst0 =>
      simp only [Prod.mk.injEq] at h
      obtain ⟨-, hσ, -⟩ := h
      subst hσ
      obtain ⟨hs, hv, hw, hc, -⟩ := createDatabaseSteps_ok cfg req req.type.strategy
        _ _ _ _ σ fs _ _ _ hat
      refine ⟨hs, hv, hw, ?_⟩
      intro hcfg
      exact hc (by simp [createBackupCronJobObject, Option.isSome_map, hcfg])
  · intro e σ₁ h hne
    rw [createDatabase_eq_attempt, h]
    simp only [if_neg hne]
    rw [rollbackCreation_noFaults]
    simp [fourAbsent, getRes_eraseKey_self]
  · intro name σd sts strategy h1 h2
    exact ⟨(deleteDatabase_noFault_core cfg name σd sts strategy h1 h2).1,
      (deleteDatabase_noFault_core cfg name σd sts strategy h1 h2).2.1⟩

set_option maxRecDepth 8192 in
/-- Witness for C2's amended theorem: a fault-free postgres creation on the
empty cluster produces all four resources. -/
theorem resourceSet_all_or_nothing_witness :
    (getRes (createDatabase cfgW reqPg zByte zByte emptyCluster []).2.1.secrets
      "foo-secret").isSome
    ∧ (getRes (createDatabase cfgW reqPg zByte zByte emptyCluster []).2.1.crons
      "foo-backup").isSome := by
  have h := (resourceSet_all_or_nothing cfgW reqPg zByte zByte emptyCluster []).1
    ((createDatabase cfgW reqPg zByte zByte emptyCluster []).1.toOption.getD
      { name := "", type := none, status := "", username := "", password := "",
        internalDbName := "", ip := none, port := none, backupSchedule := "" })
    (createDatabase cfgW reqPg zByte zByte emptyCluster []).2.1
    (createDatabase cfgW reqPg zByte zByte emptyCluster []).2.2 (by decide)
  exact ⟨h.1, h.2.2.2 (by decide)⟩

/-- C2 (counterexample to the claim as stated): on a cluster where an
unmanaged service already occupies `foo-service`, creating `foo` fails with
"Database already exists" after the credentials secret was created; no
rollback happens, so the secret is present while the workload is absent —
a proper partial subset with no compensation failure involved. -/
theorem resourceSet_all_or_nothing_counterexample :
    (createDatabase cfgW reqPg zByte zByte sigmaConflict []).1 =
      .error (.msg "Database already exists")
    ∧ (getRes (createDatabase cfgW reqPg zByte zByte sigmaConflict []).2.1.secrets
        "foo-secret").isSome
    ∧ getRes (createDatabase cfgW reqPg zByte zByte sigmaConflict []).2.1.stss
        "foo-statefulset" = none
    ∧ ¬ fourAbsent "foo" (createDatabase cfgW reqPg zByte zByte sigmaConflict []).2.1 := by
  decide

set_option maxHeartbeats 1000000 in
/-- C5: with the cluster calls succeeding, `deleteDatabase` raises
"Database not found" exactly when the workload `name`-statefulset is absent
(and leaves the state unchanged); when the workload exists (and its engine
label resolves to a strategy) the call succeeds and afterwards all four
per-instance resources are absent, so a second call reports the not-found
error; a fault on the workload read other than a 404 propagates unchanged;
and each dependent-resource delete treats absence as success (the state is
returned unchanged, no error is possible by construction). -/
theorem deleteDatabase_spec (cfg : Config) (name : String) (σ : Cluster) :
    (getRes σ.stss (name ++ "-statefulset") = none →
      deleteDatabase cfg name σ [] = (.error (.msg "Database not found"), σ, []))
    ∧ (∀ sts strategy, getRes σ.stss (name ++ "-statefulset") = some sts →
        getStrategy (jsOrStr (getRes sts.labels "dataforge.db/type") "postgres") =
          .ok strategy →
        (deleteDatabase cfg name σ []).1 = .ok ()
        ∧ fourAbsent name (deleteDatabase cfg name σ []).2.1
        ∧ (deleteDatabase cfg name ((deleteDatabase cfg name σ []).2.1) []).1 =
            .error (.msg "Database not found"))
    ∧ (∀ e, e ≠ .k8s 404 → deleteDatabase cfg name σ [some e] = (.error e, σ, []))
    ∧ (∀ k, getRes σ.secrets k = none → deleteSecretOp k σ [] = (σ, []))
    ∧ (∀ k, getRes σ.services k = none → deleteServiceOp k σ [] = (σ, []))
    ∧ (∀ k, getRes σ.stss k = none → deleteStatefulSetOp k σ [] = (σ, []))
    ∧ (∀ k, getRes σ.crons k = none → deleteCronJobOp k σ [] = (σ, [])) := by
  refine ⟨?_, ?_, ?_, ?_, ?_, ?_, ?_⟩
  · intro h
    simp [deleteDatabase, getStatefulSetOp, takeFault, h, deleteDatabaseCatch]
  · intro sts strategy h1 h2
    exact deleteDatabase_noFault_core cfg name σ sts strategy h1 h2
  · intro e he
    simp [deleteDatabase, getStatefulSetOp, takeFault, deleteDatabaseCatch, he]
  · intro k hk
    simp [deleteSecretOp, takeFault, eraseKey_of_absent k σ.secrets hk]
  · intro k hk
    simp [deleteServiceOp, takeFault, eraseKey_of_absent k σ.services hk]
  · intro k hk
    simp [deleteStatefulSetOp, takeFault, eraseKey_of_absent k σ.stss hk]
  · intro k hk
    simp [deleteCronJobOp, takeFault, eraseKey_of_absent k σ.crons hk]

/-- Witness for C5 on a fully provisioned instance `db` and on a missing
instance name. -/
theorem deleteDatabase_spec_witness :
    deleteDatabase cfgW "missing" sigmaFull [] =
      (.error (.msg "Database not found"), sigmaFull, [])
    ∧ (deleteDatabase cfgW "db" sigmaFull []).1 = .ok ()
    ∧ fourAbsent "db" (deleteDatabase cfgW "db" sigmaFull []).2.1
    ∧ (deleteDatabase cfgW "db" ((deleteDatabase cfgW "db" sigmaFull []).2.1) []).1 =
        .error (.msg "Database not found") :=
  ⟨(deleteDatabase_spec cfgW "missing" sigmaFull).1 (by decide),
   (deleteDatabase_spec cfgW "db" sigmaFull).2.1 stsDb postgresStrategy (by decide) rfl⟩

theorem replaceDashes_idem (s : String) : replaceDashes (replaceDashes s) = replaceDashes s := by
  unfold replaceDashes
  have hfun : ((fun c => if c = '-' then '_' else c) ∘ (fun c => if c = '-' then '_' else c)) =
      (fun c : Char => if c = '-' then '_' else c) := by
    funext c
    by_cases h : c = '-' <;> simp [h]
  show String.mk (((s.data.map _)).map _) = _
  rw [List.map_map, hfun]

/-- C8: for every engine strategy the factory resolves, `getInternalDbName`
is deterministic (it is a pure function of its argument) and idempotent:
applying it to its own output returns that output unchanged; in particular
the postgres strategy normalizes "my-app" to "my_app" and leaves "my_app"
unchanged. -/
theorem internalDbName_idempotent :
    (∀ t strategy, getStrategy t = .ok strategy →
        ∀ s, strategy.getInternalDbName (strategy.getInternalDbName s) =
          strategy.getInternalDbName s)
    ∧ postgresStrategy.getInternalDbName "my-app" = "my_app"
    ∧ postgresStrategy.getInternalDbName "my_app" = "my_app" := by
  refine ⟨?_, by decide, by decide⟩
  intro t strategy h s
  unfold getStrategy at h
  split_ifs at h with h1 h2
  · injection h with h; subst h
    exact replaceDashes_idem s
  · injection h with h; subst h
    rfl

/-- Witness for C8 at the postgres strategy and a concrete name. -/
theorem internalDbName_idempotent_witness :
    postgresStrategy.getInternalDbName (postgresStrategy.getInternalDbName "shop-db") =
      postgresStrategy.getInternalDbName "shop-db" :=
  internalDbName_idempotent.1 "postgres" postgresStrategy rfl "shop-db"

theorem getD_of_all {l : List Char} {p : Char → Bool} (h : l.all p = true) (d : Char)
    (hd : p d = true) (i : Nat) : p (l.getD i d) = true := by
  induction l generalizing i with
  | nil => simpa [List.getD] using hd
  | cons a l ih =>
    rw [List.all_cons, Bool.and_eq_true] at h
    cases i with
    | zero => simpa [List.getD] using h.1
    | succ n => simpa [List.getD] using ih h.2 n

theorem generatePassword_length (len : Nat) (rand : Nat → Nat) :
    (generatePassword len rand).length = len := by
  show ((List.range len).map _).length = len
  simp

theorem generatePassword_alphanum (len : Nat) (rand : Nat → Nat) :
    ∀ c ∈ (generatePassword len rand).data, c.isAlphanum = true := by
  intro c hc
  simp only [generatePassword, List.mem_map, List.mem_range] at hc
  obtain ⟨i, _, rfl⟩ := hc
  exact getD_of_all (by decide) 'a' (by decide) _

/-- C9: every password produced by a factory-resolved strategy's
`createPassword` consists only of alphanumeric characters and has exactly
16 characters, hence at least 16.  (The configuration schema declares a
`PASSWORD_LENGTH` setting defaulting to 16, `Config.passwordLength` here,
but `createPassword` calls `generatePassword` without a length argument, so
the source-level default of 16 applies in every configuration.) -/
theorem createPassword_spec :
    ∀ t strategy, getStrategy t = .ok strategy →
      ∀ rand, (strategy.createPassword rand).length = 16 ∧
        16 ≤ (strategy.createPassword rand).length ∧
        ∀ c ∈ (strategy.createPassword rand).data, c.isAlphanum = true := by
  intro t strategy h rand
  unfold getStrategy at h
  split_ifs at h with h1 h2
  · injection h with h; subst h
    exact ⟨generatePassword_length 16 rand,
      le_of_eq (generatePassword_length 16 rand).symm,
      generatePassword_alphanum 16 rand⟩
  · injection h with h; subst h
    exact ⟨generatePassword_length 16 rand,
      le_of_eq (generatePassword_length 16 rand).symm,
      generatePassword_alphanum 16 rand⟩

/-- Witness for C9 at the redis strategy and a concrete byte source. -/
theorem createPassword_spec_witness :
    (redisStrategy.createPassword zByte).length = 16 ∧
      ∀ c ∈ (redisStrategy.createPassword zByte).data, c.isAlphanum = true :=
  ⟨(createPassword_spec "redis" redisStrategy rfl zByte).1,
   (createPassword_spec "redis" redisStrategy rfl zByte).2.2⟩

/-- C3: with the S3 calls succeeding, the backup listing is sorted by
`lastModified` descending; when the prefix holds at most `keep` objects,
pruning deletes nothing and returns 0; when it holds more, pruning returns
the number of excess backups, the deleted entries are exactly the ones
dropped after the newest `keep` (each no newer than any kept one), and the
store afterwards is the original minus precisely those keys. -/
theorem pruneBackups_spec (s3 : List S3Obj) (dbName : String) (keep : Nat) :
    List.Sorted newestFirst (listBackups dbName s3 none)
    ∧ ((listBackups dbName s3 none).length ≤ keep →
        pruneBackups dbName keep s3 none none = (.ok 0, s3))
    ∧ (keep < (listBackups dbName s3 none).length →
        (pruneBackups dbName keep s3 none none).1 =
          .ok ((listBackups dbName s3 none).length - keep)
        ∧ ((listBackups dbName s3 none).drop keep).length =
            (listBackups dbName s3 none).length - keep
        ∧ (∀ d ∈ (listBackups dbName s3 none).drop keep,
            ∀ r ∈ (listBackups dbName s3 none).take keep, d.lastModified ≤ r.lastModified)
        ∧ (pruneBackups dbName keep s3 none none).2 =
            s3.filter (fun o =>
              ¬ (((listBackups dbName s3 none).drop keep).map
                  (fun b => b.key)).contains o.key)) := by
  have hsorted : List.Sorted newestFirst (listBackups dbName s3 none) :=
    List.sorted_insertionSort newestFirst _
  refine ⟨hsorted, ?_, ?_⟩
  · intro h
    simp [pruneBackups, h]
  · intro h
    have hnle : ¬ (listBackups dbName s3 none).length ≤ keep := not_le.mpr h
    refine ⟨?_, List.length_drop _ _, ?_, ?_⟩
    · simp [pruneBackups, hnle]
    · intro d hd r hr
      have hsplit := hsorted
      rw [← List.take_append_drop keep (listBackups dbName s3 none)] at hsplit
      exact (List.pairwise_append.mp hsplit).2.2 r hr d hd
    · simp [pruneBackups, hnle]

/-- Witness for C3: five backups of `db`, prune with keep 3 deletes the two
oldest and returns 2. -/
theorem pruneBackups_spec_witness :
    3 < (listBackups "db" s3Five none).length ∧
      (pruneBackups "db" 3 s3Five none none).1 =
        .ok ((listBackups "db" s3Five none).length - 3) ∧
      (listBackups "db" s3Five none).length - 3 = 2 :=
  ⟨by decide, ((pruneBackups_spec s3Five "db" 3).2.2 (by decide)).1, by decide⟩

theorem processSts_status (σ : Cluster) (env : ListEnv) (sts : Sts) :
    (processSts σ env sts).status =
      if jsOrNat sts.statusReadyReplicas 0 == jsOrNat sts.statusReplicas 1
      then "Running" else "Pending" := by
  simp only [processSts]
  cases hsec : fetchSecretL env σ ((jsOrStr (getRes sts.labels "app") "unknown") ++ "-secret") <;>
    simp [hsec]

/-- C6 (amended): for every workload of a successful listing the derived
status is "Running" or "Pending" and never any other value, and it is
"Running" exactly when the ready replica count (a missing field counting
as 0) equals the reported replica count with a missing or zero value
counting as 1 — so a workload reporting zero replicas is always Pending
even though its ready count equals its replica count. -/
theorem listDatabases_status (σ : Cluster) (env : ListEnv) (sts : Sts)
    (hfault : env.listFault = none) (hmem : sts ∈ managedStss σ) :
    ∃ l, listDatabases σ env = .ok l ∧ processSts σ env sts ∈ l
    ∧ ((processSts σ env sts).status = "Running" ∨ (processSts σ env sts).status = "Pending")
    ∧ ((processSts σ env sts).status = "Running" ↔
        jsOrNat sts.statusReadyReplicas 0 = jsOrNat sts.statusReplicas 1) := by
  refine ⟨(managedStss σ).map (processSts σ env), by simp [listDatabases, hfault],
    List.mem_map_of_mem _ hmem, ?_, ?_⟩
  · rw [processSts_status]
    by_cases h : jsOrNat sts.statusReadyReplicas 0 = jsOrNat sts.statusReplicas 1
    · left; simp [h]
    · right; simp [h]
  · rw [processSts_status]
    by_cases h : jsOrNat sts.statusReadyReplicas 0 = jsOrNat sts.statusReplicas 1
    · simp [h]
    · simp [h]

/-- C6 (counterexample to the claim as stated): a managed workload whose
status reports zero ready replicas and zero replicas has equal ready and
reported replica counts, yet the listing derives status "Pending", not
"Running". -/
theorem listDatabases_status_counterexample :
    stsZero.statusReadyReplicas = stsZero.statusReplicas
    ∧ listDatabases sigmaZero envNoFault = .ok [processSts sigmaZero envNoFault stsZero]
    ∧ (processSts sigmaZero envNoFault stsZero).status = "Pending"
    ∧ (processSts sigmaZero envNoFault stsZero).status ≠ "Running" := by decide

/-- Witness for C6 at the zero-replica cluster. -/
theorem listDatabases_status_witness :
    ∃ l, listDatabases sigmaZero envNoFault = .ok l
    ∧ processSts sigmaZero envNoFault stsZero ∈ l
    ∧ ((processSts sigmaZero envNoFault stsZero).status = "Running" ∨
        (processSts sigmaZero envNoFault stsZero).status = "Pending")
    ∧ ((processSts sigmaZero envNoFault stsZero).status = "Running" ↔
        jsOrNat stsZero.statusReadyReplicas 0 = jsOrNat stsZero.statusReplicas 1) :=
  listDatabases_status sigmaZero envNoFault stsZero rfl (by decide)

/-- C7 (amended): a decoration failure never aborts the listing and never
omits the instance.  When the credentials secret read fails (fault or
absence) every decoration field is empty and ip/port are absent; when the
secret read succeeds but the service read fails, only ip/port are absent
while the credentials fields carry the decoded secret values. -/
theorem listDatabases_decoration (σ : Cluster) (env : ListEnv) (sts : Sts)
    (hfault : env.listFault = none) (hmem : sts ∈ managedStss σ) :
    ∃ l, listDatabases σ env = .ok l ∧ processSts σ env sts ∈ l
    ∧ (fetchSecretL env σ ((jsOrStr (getRes sts.labels "app") "unknown") ++ "-secret") = none →
        (processSts σ env sts).username = "" ∧ (processSts σ env sts).password = ""
        ∧ (processSts σ env sts).internalDbName = ""
        ∧ (processSts σ env sts).ip = none ∧ (processSts σ env sts).port = none)
    ∧ (∀ data,
        fetchSecretL env σ ((jsOrStr (getRes sts.labels "app") "unknown") ++ "-secret") =
          some data →
        fetchServiceL env σ ((jsOrStr (getRes sts.labels "app") "unknown") ++ "-service") =
          none →
        (processSts σ env sts).ip = none ∧ (processSts σ env sts).port = none
        ∧ (processSts σ env sts).username = jsOrStr (getRes data "username") ""
        ∧ (processSts σ env sts).password = jsOrStr (getRes data "password") ""
        ∧ (processSts σ env sts).internalDbName = jsOrStr (getRes data "db_name") "") := by
  refine ⟨(managedStss σ).map (processSts σ env), by simp [listDatabases, hfault],
    List.mem_map_of_mem _ hmem, ?_, ?_⟩
  · intro hsec
    simp only [processSts]
    simp [hsec]
  · intro data hsec hsvc
    simp only [processSts]
    simp [hsec, hsvc]

/-- C7 (counterexample to the claim as stated): with the secret present and
populated but the service absent, the instance is returned with the decoded
username rather than an empty one. -/
theorem listDatabases_decoration_counterexample :
    fetchServiceL envNoFault sigmaNoService "db-service" = none
    ∧ listDatabases sigmaNoService envNoFault =
        .ok [processSts sigmaNoService envNoFault stsDb]
    ∧ (processSts sigmaNoService envNoFault stsDb).username = "admin"
    ∧ (processSts sigmaNoService envNoFault stsDb).username ≠ ""
    ∧ (processSts sigmaNoService envNoFault stsDb).ip = none := by decide

/-- Witness for C7 at a cluster whose secret is absent. -/
theorem listDatabases_decoration_witness :
    ∃ l, listDatabases sigmaZero envNoFault = .ok l
    ∧ processSts sigmaZero envNoFault stsZero ∈ l
    ∧ (processSts sigmaZero envNoFault stsZero).username = ""
    ∧ (processSts sigmaZero envNoFault stsZero).ip = none := by
  obtain ⟨l, h1, h2, h3, -⟩ :=
    listDatabases_decoration sigmaZero envNoFault stsZero rfl (by decide)
  exact ⟨l, h1, h2, (h3 (by decide)).1, (h3 (by decide)).2.2.2.1⟩

/-- C10: for a workload carrying no `dataforge.db/type` label,
`restoreDatabase` silently falls back to the postgres strategy and proceeds
with the destructive restore — the exec channel runs the postgres
pre-restore and restore commands and the operation succeeds — whereas
`getDatabaseDumpStream` on the same cluster fails with "Could not determine
database type" and opens no exec channel. -/
theorem restore_vs_dump_label_fallback (cfg : Config) (σ : Cluster) (name key : String)
    (sts : Sts)
    (hsts : getRes σ.stss (name ++ "-statefulset") = some sts)
    (hlabel : getRes sts.labels "dataforge.db/type" = none)
    (hkey : (σ.s3.any (fun o => o.key == key)) = true) :
    restoreDatabase cfg name key σ [] =
      (.ok (), [⟨cfg.namespaceName, name ++ "-statefulset-0", "database",
                  postgresStrategy.createPreRestoreCommand⟩,
                ⟨cfg.namespaceName, name ++ "-statefulset-0", "database",
                  postgresStrategy.createRestoreCommand⟩], [])
    ∧ getDatabaseDumpStream cfg name σ [] =
        (.error (.msg "Could not determine database type"), [], []) := by
  constructor
  · simp only [restoreDatabase, getStatefulSetOp, takeFault, hsts, hlabel, jsOrStr,
      getStrategy, getBackupStreamOp, hkey]
    simp [takeFault]
  · simp only [getDatabaseDumpStream, getStatefulSetOp, takeFault, hsts, hlabel]

/-- Witness for C10 at a concrete unlabelled workload with one stored
backup. -/
theorem restore_vs_dump_label_fallback_witness :
    restoreDatabase cfgW "db" "appdb/backup_x.sql" sigmaNoLabel [] =
      (.ok (), [⟨cfgW.namespaceName, "db-statefulset-0", "database",
                  postgresStrategy.createPreRestoreCommand⟩,
                ⟨cfgW.namespaceName, "db-statefulset-0", "database",
                  postgresStrategy.createRestoreCommand⟩], [])
    ∧ getDatabaseDumpStream cfgW "db" sigmaNoLabel [] =
        (.error (.msg "Could not determine database type"), [], []) :=
  restore_vs_dump_label_fallback cfgW sigmaNoLabel "db" "appdb/backup_x.sql"
    { labels := [("app", "db")], statusReplicas := none, statusReadyReplicas := none }
    (by decide) (by decide) (by decide)

end DataForge
